import Mathlib

/-!
# Verification of the MyVulkan HelloTriangleApplication

A shallow embedding of `src/MyVulkan/src/HelloTriangleApplication.cpp`,
`HelloTriangleApplication.h` and `main.cpp` (a Vulkan tutorial program that
draws a rotating colored quad), together with proofs about the embedded
definitions.

Modelling conventions:
* Vulkan driver calls are oracles: their results are explicit parameters
  (a `FrameEnv` for one `drawFrame`, a `PhysicalDevice` record holding what
  the queries of that device return, a `String → Option (List Nat)` map for
  the filesystem).
* `float` mesh coordinates are exact here (−0.5, 0.5, 0.0, 1.0), so they are
  embedded as rationals.
* `cos`/`sin` of the rotation angle are symbolic ring elements `c`, `s`;
  the glm matrix algebra is embedded literally over a commutative ring.
* Host-visible effects of `drawFrame` (fence waits/resets, the acquire,
  command-buffer reset/record, submit, present, swapchain recreation) are
  collected as an event trace; C++ exceptions are `Except.error` carrying
  the `runtime_error` message.
-/

namespace MyVulkan

/-! ## The hard-coded mesh (HelloTriangleApplication.cpp lines 33–43) -/

/-- `struct Vertex` (HelloTriangleApplication.h): a vec2 position and a
vec3 color. The float literals in the vertex table are exactly
representable, so the components are embedded as rationals. -/
structure Vertex where
  pos : ℚ × ℚ
  color : ℚ × ℚ × ℚ
  deriving DecidableEq, Repr

/-- `const std::vector<Vertex> vertices` — the hard-coded quad mesh. -/
def vertices : List Vertex :=
  [ ⟨(-(1/2), -(1/2)), (1, 0, 0)⟩,
    ⟨(1/2, -(1/2)), (0, 1, 0)⟩,
    ⟨(1/2, 1/2), (0, 0, 1)⟩,
    ⟨(-(1/2), 1/2), (1, 1, 1)⟩ ]

/-- `const std::vector<uint16_t> indices` — the index list. -/
def indices : List Nat := [0, 1, 2, 2, 3, 0]

/-! ## Pipeline fixed state (createGraphicsPipeline, line 879) -/

inductive VkPrimitiveTopology where
  | pointList
  | lineList
  | lineStrip
  | triangleList
  | triangleStrip
  deriving DecidableEq, Repr

/-- `inputAssembly.topology = VK_PRIMITIVE_TOPOLOGY_TRIANGLE_LIST;`
(createGraphicsPipeline). -/
def pipelineInputAssemblyTopology : VkPrimitiveTopology := .triangleList

/-! ## recordCommandBuffer (lines 1317–1413)

The commands recorded into the command buffer, in source order. Handles
(framebuffer, pipeline, buffers) are fixed members of the application, so
only the data that varies — `imageIndex` and `curFrame_` — parametrises the
trace. -/

inductive Cmd where
  | beginRenderPass (framebufferIndex : Nat)
  | bindPipeline
  | bindVertexBuffers
  | bindIndexBuffer
  | setViewport
  | setScissor
  | bindDescriptorSets (setIndex : Nat)
  | drawIndexed (indexCount instanceCount firstIndex vertexOffset firstInstance : Nat)
  | endRenderPass
  deriving DecidableEq, Repr

/-- `recordCommandBuffer(commandBuffer, imageIndex)`: begins the render pass
on `swapChainFramebuffers_[imageIndex]`, binds pipeline, vertex and index
buffers, sets viewport/scissor, binds `descriptorSets_[curFrame_]`, then
`vkCmdDrawIndexed(commandBuffer, indices.size(), 1, 0, 0, 0)` and ends the
render pass. -/
def recordCommandBuffer (imageIndex curFrame : Nat) : List Cmd :=
  [ .beginRenderPass imageIndex,
    .bindPipeline,
    .bindVertexBuffers,
    .bindIndexBuffer,
    .setViewport,
    .setScissor,
    .bindDescriptorSets curFrame,
    .drawIndexed indices.length 1 0 0 0,
    .endRenderPass ]

/-- Whether a recorded command is an indexed draw. -/
def isDrawIndexed : Cmd → Bool
  | .drawIndexed _ _ _ _ _ => true
  | _ => false

/-! ## updateUniformBuffer (lines 1883–1908): the model matrix

`ubo.model = glm::rotate(glm::mat4(1.0f), time * glm::radians(90.0f),
glm::vec3(0.0f, 0.0f, 1.0f));`

`glm::rotate(m, angle, v)` computes `c = cos(angle)`, `s = sin(angle)`,
`axis = normalize(v)`, `temp = (1-c)*axis`, fills the 3×3 block `Rotate`
column-by-column and multiplies into `m`. Here `m` is the identity, and
`normalize(0,0,1) = (0,0,1)`. The entries are embedded literally with `c`
and `s` symbolic (matrix entry `(i, j)` is glm's column-major
`Rotate[j][i]`). -/
def glmRotate {α : Type} [CommRing α] (c s x y z : α) : Matrix (Fin 4) (Fin 4) α :=
  let tx := (1 - c) * x
  let ty := (1 - c) * y
  let tz := (1 - c) * z
  !![c + tx * x,    ty * x - s * z, tz * x + s * y, 0;
     tx * y + s * z, c + ty * y,    tz * y - s * x, 0;
     tx * z - s * y, ty * z + s * x, c + tz * z,    0;
     0,             0,              0,              1]

/-- The model matrix written by `updateUniformBuffer`, as a function of the
cosine and sine of the rotation angle: `glm::rotate` of the identity about
axis `(0, 0, 1)`. -/
def uboModel {α : Type} [CommRing α] (c s : α) : Matrix (Fin 4) (Fin 4) α :=
  glmRotate c s 0 0 1

/-- The canonical rotation about the z-axis (spec-side definition, for
comparison with `uboModel`). -/
def rotationAboutZ {α : Type} [CommRing α] (c s : α) : Matrix (Fin 4) (Fin 4) α :=
  !![c, -s, 0, 0;
     s,  c, 0, 0;
     0,  0, 1, 0;
     0,  0, 0, 1]

/-- `glm::radians(degrees) = degrees * (π / 180)`. -/
def glmRadians {α : Type} [DivisionRing α] (pi degrees : α) : α :=
  degrees * (pi / 180)

/-- The rotation angle `time * glm::radians(90.0f)` passed to `glm::rotate`
by `updateUniformBuffer`, where `time` is the elapsed seconds since the
first call. -/
def uboModelAngle {α : Type} [DivisionRing α] (pi time : α) : α :=
  time * glmRadians pi 90

/-! ## Frame count and per-frame arrays (lines 53, 1287–1311, 1541–1570,
1861–1880, 1936–1994) -/

/-- `const int MAX_FRAMES_IN_FLIGHT = 2;` -/
def MAX_FRAMES_IN_FLIGHT : Nat := 2

/-- The six per-frame vectors of the application whose sizes the spec talks
about. Elements are opaque Vulkan handles, modelled as `Nat`. -/
structure PerFrameArrays where
  commandBuffers : List Nat
  imageAvailableSemaphores : List Nat
  renderFinishedSemaphores : List Nat
  inFlightFences : List Nat
  uniformBuffers : List Nat
  descriptorSets : List Nat
  deriving Repr

/-- The steps `initVulkan` performs, one constructor per call, named after
the member functions. -/
inductive InitStep where
  | createInstance
  | setupDebugMessenger
  | createSurface
  | pickPhysicalDevice
  | createLogicalDevice
  | createSwapChain
  | createImageViews
  | createRenderPass
  | createDescriptorSetLayout
  | createGraphicsPipeline
  | createFramebuffers
  | createCommandPool
  | createVertexBuffer
  | createIndexBuffer
  | createUniformBuffers
  | createDescriptorPool
  | createDescriptorSets
  | createCommandBuffers
  | createSyncObjects
  deriving DecidableEq, Repr

/-- The body of `initVulkan` (lines 146–203), in source order. -/
def initVulkanSteps : List InitStep :=
  [ .createInstance,
    .setupDebugMessenger,
    .createSurface,
    .pickPhysicalDevice,
    .createLogicalDevice,
    .createSwapChain,
    .createImageViews,
    .createRenderPass,
    .createDescriptorSetLayout,
    .createGraphicsPipeline,
    .createFramebuffers,
    .createCommandPool,
    .createVertexBuffer,
    .createIndexBuffer,
    .createUniformBuffers,
    .createDescriptorPool,
    .createDescriptorSets,
    .createCommandBuffers,
    .createSyncObjects ]

/-- Effect of each init step on the sizes of the per-frame vectors:
`createCommandBuffers` resizes `commandBuffers_` to `MAX_FRAMES_IN_FLIGHT`
(line 1289); `createSyncObjects` resizes the two semaphore vectors and the
fence vector (lines 1543–1545); `createUniformBuffers` resizes
`uniformBuffers_` (line 1866); `createDescriptorSets` resizes
`descriptorSets_` (line 1952). Every other step leaves these six vectors
untouched. The freshly created handles are opaque; `0` stands for each. -/
def applyInitStep (a : PerFrameArrays) : InitStep → PerFrameArrays
  | .createCommandBuffers =>
      { a with commandBuffers := List.replicate MAX_FRAMES_IN_FLIGHT 0 }
  | .createSyncObjects =>
      { a with
        imageAvailableSemaphores := List.replicate MAX_FRAMES_IN_FLIGHT 0,
        renderFinishedSemaphores := List.replicate MAX_FRAMES_IN_FLIGHT 0,
        inFlightFences := List.replicate MAX_FRAMES_IN_FLIGHT 0 }
  | .createUniformBuffers =>
      { a with uniformBuffers := List.replicate MAX_FRAMES_IN_FLIGHT 0 }
  | .createDescriptorSets =>
      { a with descriptorSets := List.replicate MAX_FRAMES_IN_FLIGHT 0 }
  | _ => a

/-- The per-frame vectors after `initVulkan`, starting from any prior
contents. -/
def initVulkanArrays (a : PerFrameArrays) : PerFrameArrays :=
  initVulkanSteps.foldl applyInitStep a

/-! ## drawFrame (lines 1432–1536) -/

/-- The `VkResult` values `drawFrame` distinguishes. `errorOther` stands
for every result that is none of `VK_SUCCESS`, `VK_SUBOPTIMAL_KHR`,
`VK_ERROR_OUT_OF_DATE_KHR`. -/
inductive VkResult where
  | success
  | suboptimalKHR
  | errorOutOfDateKHR
  | errorOther
  deriving DecidableEq, Repr

/-- Mutable application state that `drawFrame` reads and writes:
`curFrame_` and `framebufferResized_`. -/
structure FrameState where
  curFrame : Nat
  framebufferResized : Bool
  deriving DecidableEq, Repr

/-- One `drawFrame`'s driver responses: what `vkAcquireNextImageKHR`
returns (result and image index), whether `vkQueueSubmit` returns
`VK_SUCCESS`, and what `vkQueuePresentKHR` returns. -/
structure FrameEnv where
  acquireResult : VkResult
  acquiredImage : Nat
  submitOk : Bool
  presentResult : VkResult
  deriving DecidableEq, Repr

/-- Host-visible events of one `drawFrame`. Indices are slots into the
per-frame vectors: `waitFence i` / `resetFence i` act on
`inFlightFences_[i]`, `acquireImage i` passes
`imageAvailableSemaphores_[i]` to the acquire, and
`submit waitSem sigSem fence` submits waiting on
`imageAvailableSemaphores_[waitSem]`, signalling
`renderFinishedSemaphores_[sigSem]` and fence `inFlightFences_[fence]`;
`present waitSem img` presents image `img` waiting on
`renderFinishedSemaphores_[waitSem]`. -/
inductive Ev where
  | waitFence (slot : Nat)
  | acquireImage (slot : Nat)
  | resetFence (slot : Nat)
  | resetCommandBuffer (slot : Nat)
  | recordBuffer (slot imageIndex : Nat)
  | updateUniform (slot : Nat)
  | submit (waitSem sigSem fence : Nat)
  | present (waitSem imageIndex : Nat)
  | recreateSwapChain
  deriving DecidableEq, Repr

/-- `drawFrame`, as a trace of host events plus either the updated state or
the thrown `runtime_error` message. Mirrors the source control flow:
wait on `inFlightFences_[curFrame_]`; acquire; on
`VK_ERROR_OUT_OF_DATE_KHR` clear `framebufferResized_`, recreate the
swapchain and return; on any other result that is neither `VK_SUCCESS` nor
`VK_SUBOPTIMAL_KHR` throw; otherwise reset the fence, reset and re-record
`commandBuffers_[curFrame_]`, update the uniform buffer, submit (throwing
on failure), present, recreate the swapchain when the present result is
out-of-date/suboptimal or `framebufferResized_` is set (clearing the flag),
throw on any other non-success present result, and finally advance
`curFrame_ = (curFrame_ + 1) % MAX_FRAMES_IN_FLIGHT`. -/
def drawFrame (st : FrameState) (env : FrameEnv) :
    List Ev × Except String FrameState :=
  let cf := st.curFrame
  let trace0 := [Ev.waitFence cf, Ev.acquireImage cf]
  if env.acquireResult = VkResult.errorOutOfDateKHR then
    (trace0 ++ [Ev.recreateSwapChain],
     Except.ok { st with framebufferResized := false })
  else if env.acquireResult ≠ VkResult.success ∧
      env.acquireResult ≠ VkResult.suboptimalKHR then
    (trace0, Except.error "Failed to acquire swap chain image!")
  else
    let trace1 := trace0 ++
      [Ev.resetFence cf, Ev.resetCommandBuffer cf,
       Ev.recordBuffer cf env.acquiredImage, Ev.updateUniform cf,
       Ev.submit cf cf cf]
    if ¬ env.submitOk then
      (trace1, Except.error "Failed to submit draw command buffer!")
    else
      let trace2 := trace1 ++ [Ev.present cf env.acquiredImage]
      if env.presentResult = VkResult.errorOutOfDateKHR ∨
          env.presentResult = VkResult.suboptimalKHR ∨
          st.framebufferResized then
        (trace2 ++ [Ev.recreateSwapChain],
         Except.ok { curFrame := (cf + 1) % MAX_FRAMES_IN_FLIGHT,
                     framebufferResized := false })
      else if env.presentResult ≠ VkResult.success then
        (trace2, Except.error "Failed to present swap chain image!")
      else
        (trace2, Except.ok { st with curFrame := (cf + 1) % MAX_FRAMES_IN_FLIGHT })

/-- `curFrame_ = 0` and `framebufferResized_ = false` initially
(HelloTriangleApplication.h lines 214–216). -/
def initialFrameState : FrameState := { curFrame := 0, framebufferResized := false }

/-- The main loop's repeated `drawFrame` calls, one driver response per
iteration, stopping at the first thrown exception. -/
def runFrames : FrameState → List FrameEnv → Except String FrameState
  | st, [] => Except.ok st
  | st, env :: rest =>
    match (drawFrame st env).2 with
    | Except.error e => Except.error e
    | Except.ok st2 => runFrames st2 rest

/-! ## Physical devices and device selection (lines 405–542) -/

/-- The `VkPhysicalDeviceType` values the rating distinguishes. -/
inductive VkPhysicalDeviceType where
  | discreteGpu
  | integratedGpu
  | virtualGpu
  | cpu
  | otherType
  deriving DecidableEq, Repr

inductive VkFormat where
  | b8g8r8a8Srgb
  | b8g8r8a8Unorm
  | r8g8b8a8Srgb
  | otherFormat
  deriving DecidableEq, Repr

inductive VkColorSpace where
  | srgbNonlinearKHR
  | otherColorSpace
  deriving DecidableEq, Repr

/-- `VkSurfaceFormatKHR`. -/
structure SurfaceFormat where
  format : VkFormat
  colorSpace : VkColorSpace
  deriving DecidableEq, Repr

inductive VkPresentMode where
  | immediateKHR
  | mailboxKHR
  | fifoKHR
  | fifoRelaxedKHR
  deriving DecidableEq, Repr

/-- One entry of `vkGetPhysicalDeviceQueueFamilyProperties`, together with
the answer `vkGetPhysicalDeviceSurfaceSupportKHR` gives for this family on
the application's surface. `graphicsBit` is
`queueFamily.queueFlags & VK_QUEUE_GRAPHICS_BIT`. -/
structure QueueFamily where
  graphicsBit : Bool
  presentSupport : Bool
  deriving DecidableEq, Repr

/-- One enumerable physical device: everything the queries
(`vkGetPhysicalDeviceProperties`, `vkGetPhysicalDeviceFeatures`,
`vkEnumerateDeviceExtensionProperties`,
`vkGetPhysicalDeviceSurfaceFormatsKHR`,
`vkGetPhysicalDeviceSurfacePresentModesKHR`, queue-family queries) return
for it, as driver-supplied data. -/
structure PhysicalDevice where
  deviceType : VkPhysicalDeviceType
  maxImageDimension2D : Nat
  geometryShader : Bool
  availableExtensions : List String
  queueFamilies : List QueueFamily
  formats : List SurfaceFormat
  presentModes : List VkPresentMode
  deriving DecidableEq, Repr

/-- `rateDeviceSuitability` (lines 481–506): `score = 0`, plus 1000 for a
discrete GPU, plus `maxImageDimension2D`; returns 0 when the device lacks
geometry-shader support. -/
def rateDeviceSuitability (d : PhysicalDevice) : Int :=
  let score : Int := 0
  let score := if d.deviceType = VkPhysicalDeviceType.discreteGpu
    then score + 1000 else score
  let score := score + d.maxImageDimension2D
  if ¬ d.geometryShader then 0 else score

/-- The `std::multimap<int, VkPhysicalDevice> candidates` of
`pickPhysicalDevice`, read back through `candidates.rbegin()`: the greatest
key, and among equal greatest keys the last inserted (multimap insertion
places equal keys after the existing ones). Embedded as a fold that
replaces the running best on `≥`. -/
def bestCandidate (b : Int × PhysicalDevice) :
    List PhysicalDevice → Int × PhysicalDevice
  | [] => b
  | d :: rest =>
    let s := rateDeviceSuitability d
    bestCandidate (if s ≥ b.1 then (s, d) else b) rest

/-- `pickPhysicalDevice` (lines 446–479): throws when no device is
enumerated; otherwise rates every device, takes `candidates.rbegin()`, and
either selects that device (score positive) or throws. -/
def pickPhysicalDevice : List PhysicalDevice → Except String PhysicalDevice
  | [] => Except.error "Failed to find GPUs with Vulkan Support!"
  | d :: rest =>
    let best := bestCandidate (rateDeviceSuitability d, d) rest
    if best.1 > 0 then Except.ok best.2
    else Except.error "Failed to find a suitable GPU"

/-- `const std::vector<const char*> deviceExtensions` (lines 61–63). -/
def deviceExtensions : List String := ["VK_KHR_swapchain"]

/-- `checkDeviceExtensionSupport` (lines 425–443): every required
extension gets erased from the set by some available extension. -/
def checkDeviceExtensionSupport (d : PhysicalDevice) : Bool :=
  deviceExtensions.all (fun e => d.availableExtensions.contains e)

/-- `QueueFamilyIndices` (HelloTriangleApplication.h lines 88–95). -/
structure QueueFamilyIndices where
  graphicsFamily : Option Nat
  presentFamily : Option Nat
  deriving DecidableEq, Repr

/-- `QueueFamilyIndices::isComplete`. -/
def QueueFamilyIndices.isComplete (q : QueueFamilyIndices) : Bool :=
  q.graphicsFamily.isSome && q.presentFamily.isSome

/-- The loop body of `findQueueFamilies` (lines 520–539): record the index
for the graphics bit and for present support, breaking as soon as both are
found. -/
def findQueueFamiliesLoop (acc : QueueFamilyIndices) (i : Nat) :
    List QueueFamily → QueueFamilyIndices
  | [] => acc
  | qf :: rest =>
    let acc := if qf.graphicsBit
      then { acc with graphicsFamily := some i } else acc
    let acc := if qf.presentSupport
      then { acc with presentFamily := some i } else acc
    if acc.isComplete then acc
    else findQueueFamiliesLoop acc (i + 1) rest

/-- `findQueueFamilies` (lines 509–542). -/
def findQueueFamilies (d : PhysicalDevice) : QueueFamilyIndices :=
  findQueueFamiliesLoop ⟨none, none⟩ 0 d.queueFamilies

/-- `isDeviceSuitable` (lines 406–423): complete queue families, the
required extensions, and — only checked when the extensions are there — a
non-empty format list and a non-empty present-mode list from
`querySwapChainSupport`. -/
def isDeviceSuitable (d : PhysicalDevice) : Bool :=
  let indices := findQueueFamilies d
  let extensionsSupported := checkDeviceExtensionSupport d
  let swapChainAdequate :=
    if extensionsSupported then
      ¬ d.formats.isEmpty && ¬ d.presentModes.isEmpty
    else false
  indices.isComplete && extensionsSupported && swapChainAdequate

/-! ## chooseSwapSurfaceFormat (lines 632–643) -/

/-- The predicate of the loop in `chooseSwapSurfaceFormat`:
`format.format == VK_FORMAT_B8G8R8A8_SRGB && format.colorSpace ==
VK_COLOR_SPACE_SRGB_NONLINEAR_KHR`. -/
def isPreferredSurfaceFormat (f : SurfaceFormat) : Bool :=
  f.format = VkFormat.b8g8r8a8Srgb ∧ f.colorSpace = VkColorSpace.srgbNonlinearKHR

/-- `chooseSwapSurfaceFormat`: the first format satisfying the predicate,
otherwise `availableFormats[0]` — which on an empty vector is an
out-of-bounds read, modelled as `none`. -/
def chooseSwapSurfaceFormat (availableFormats : List SurfaceFormat) :
    Option SurfaceFormat :=
  match availableFormats.find? isPreferredSurfaceFormat with
  | some f => some f
  | none => availableFormats.head?

/-! ## createSwapChain image count (lines 703–711) -/

/-- The requested swapchain image count: `minImageCount + 1` in `uint32_t`
arithmetic, clamped down to `maxImageCount` when that is positive
(`maxImageCount == 0` means no limit) and exceeded. -/
def requestedImageCount (minImageCount maxImageCount : Nat) : Nat :=
  let imageCount := (minImageCount + 1) % 2 ^ 32
  if maxImageCount > 0 ∧ imageCount > maxImageCount then maxImageCount
  else imageCount

/-! ## readFile and the shader loads (lines 73–93, 813–820) -/

/-- `readFile(filename)` against a filesystem oracle mapping a filename to
its byte contents (`none` when the file cannot be opened): throws
`"Failed to Open File!"` on open failure; otherwise takes `fileSize` from
`tellg()` at the end, allocates a buffer of that size, seeks back and reads
the whole file into it. -/
def readFile (fs : String → Option (List Nat)) (filename : String) :
    Except String (List Nat) :=
  match fs filename with
  | none => Except.error "Failed to Open File!"
  | some contents =>
    let fileSize := contents.length
    let buffer := contents.take fileSize
    Except.ok buffer

/-- The two shader loads at the top of `createGraphicsPipeline`
(lines 814–816), in source order. -/
def createGraphicsPipelineShaders (fs : String → Option (List Nat)) :
    Except String (List Nat × List Nat) := do
  let vertShaderCode ← readFile fs "data/shaders/vert.spv"
  let fragShaderCode ← readFile fs "data/shaders/frag.spv"
  pure (vertShaderCode, fragShaderCode)

/-! ## main (main.cpp lines 15–27) -/

/-- `EXIT_SUCCESS`. -/
def EXIT_SUCCESS : Nat := 0

/-- `EXIT_FAILURE`. -/
def EXIT_FAILURE : Nat := 1

/-- What `main` produces: the process exit code and what, if anything, was
printed to `std::cerr`. -/
structure MainOutcome where
  exitCode : Nat
  stderrLine : Option String
  deriving DecidableEq, Repr

/-- `main`: constructs the application, calls `run()` (whose outcome — a
normal return or a thrown `std::exception` with its `what()` message — is
the parameter), prints the message to `std::cerr` and returns
`EXIT_FAILURE` on a caught exception, else returns `EXIT_SUCCESS`. -/
def mainEntry (runOutcome : Except String Unit) : MainOutcome :=
  match runOutcome with
  | Except.error e => { exitCode := EXIT_FAILURE, stderrLine := some e }
  | Except.ok _ => { exitCode := EXIT_SUCCESS, stderrLine := none }

/-! ## Concrete fixtures used to instantiate the theorems -/

/-- A filesystem in which both shader files exist (contents arbitrary). -/
def testFS : String → Option (List Nat) := fun name =>
  if name = "data/shaders/vert.spv" then some [3, 2, 35, 7]
  else if name = "data/shaders/frag.spv" then some [3, 2, 35, 7, 0]
  else none

/-- A discrete GPU with geometry shaders, complete queue families and the
swapchain extension, whose surface-format query returns the empty list.
`rateDeviceSuitability` scores it 5096, so `pickPhysicalDevice` selects it,
while `isDeviceSuitable` would have rejected it. -/
def emptyFormatsDevice : PhysicalDevice where
  deviceType := VkPhysicalDeviceType.discreteGpu
  maxImageDimension2D := 4096
  geometryShader := true
  availableExtensions := ["VK_KHR_swapchain"]
  queueFamilies := [⟨true, true⟩]
  formats := []
  presentModes := [VkPresentMode.fifoKHR]

/-- An integrated GPU without geometry-shader support: its rating is 0. -/
def unsuitableDevice : PhysicalDevice where
  deviceType := VkPhysicalDeviceType.integratedGpu
  maxImageDimension2D := 2048
  geometryShader := false
  availableExtensions := []
  queueFamilies := []
  formats := []
  presentModes := []

/-! ## Helper lemmas -/

/-- `glm::rotate` of the identity about `(0, 0, 1)` is the canonical
rotation about the z-axis. -/
theorem uboModel_eq_rotationAboutZ {α : Type} [CommRing α] (c s : α) :
    uboModel c s = rotationAboutZ c s := by
  unfold uboModel glmRotate rotationAboutZ
  ext i j
  fin_cases i <;> fin_cases j <;> simp

/-! ## Claim theorems -/

/-- C5: `initVulkan` performs the setup steps in the spec's stated order:
instance creation precedes physical-device selection and logical-device
creation, which precede swapchain creation, which precedes
graphics-pipeline creation, which precedes vertex- and index-buffer
creation, which precedes uniform-buffer creation, which precedes creation
of the synchronization objects, the last step of `initVulkan`. -/
theorem initVulkan_step_order :
    initVulkanSteps.Nodup
  ∧ initVulkanSteps.indexOf InitStep.createInstance <
      initVulkanSteps.indexOf InitStep.pickPhysicalDevice
  ∧ initVulkanSteps.indexOf InitStep.pickPhysicalDevice <
      initVulkanSteps.indexOf InitStep.createLogicalDevice
  ∧ initVulkanSteps.indexOf InitStep.createLogicalDevice <
      initVulkanSteps.indexOf InitStep.createSwapChain
  ∧ initVulkanSteps.indexOf InitStep.createSwapChain <
      initVulkanSteps.indexOf InitStep.createGraphicsPipeline
  ∧ initVulkanSteps.indexOf InitStep.createGraphicsPipeline <
      initVulkanSteps.indexOf InitStep.createVertexBuffer
  ∧ initVulkanSteps.indexOf InitStep.createVertexBuffer <
      initVulkanSteps.indexOf InitStep.createIndexBuffer
  ∧ initVulkanSteps.indexOf InitStep.createIndexBuffer <
      initVulkanSteps.indexOf InitStep.createUniformBuffers
  ∧ initVulkanSteps.indexOf InitStep.createUniformBuffers <
      initVulkanSteps.indexOf InitStep.createSyncObjects
  ∧ initVulkanSteps.getLast? = some InitStep.createSyncObjects := by
  decide

/-- C10: `main` constructs the application and calls `run()`; when `run()`
throws a `std::exception`, `main` prints its message to standard error and
returns `EXIT_FAILURE`; when `run()` returns normally, `main` returns
`EXIT_SUCCESS`. -/
theorem main_exit_behaviour :
    (∀ msg, mainEntry (Except.error msg) =
      { exitCode := EXIT_FAILURE, stderrLine := some msg })
  ∧ mainEntry (Except.ok ()) = { exitCode := EXIT_SUCCESS, stderrLine := none }
  ∧ EXIT_FAILURE = 1 ∧ EXIT_SUCCESS = 0 :=
  ⟨fun _ => rfl, rfl, rfl, rfl⟩

/-- C7: `createSwapChain` requests `minImageCount + 1` images, clamped down
to `maxImageCount` when that limit is positive (`0` meaning no limit) and
`minImageCount + 1` exceeds it. -/
theorem swapchain_image_count (minImageCount maxImageCount : Nat)
    (h : minImageCount + 1 < 2 ^ 32) :
    requestedImageCount minImageCount maxImageCount =
      if maxImageCount = 0 then minImageCount + 1
      else min (minImageCount + 1) maxImageCount := by
  simp only [requestedImageCount]
  rw [Nat.mod_eq_of_lt h]
  split_ifs <;> omega

/-- Witness for C7: a surface with `minImageCount = 2` and no maximum gives
a request of 3; one with `minImageCount = 3` and `maxImageCount = 2` is
clamped to 2. -/
theorem swapchain_image_count_witness :
    requestedImageCount 2 0 = 3 ∧ requestedImageCount 3 2 = 2 := by
  have h1 := swapchain_image_count 2 0 (by norm_num)
  have h2 := swapchain_image_count 3 2 (by norm_num)
  refine ⟨by simpa using h1, by simpa using h2⟩

/-- C1: the hard-coded mesh has exactly 4 vertices with pairwise distinct
colors; the index list is `{0, 1, 2, 2, 3, 0}`, two triangles sharing the
(0, 2) edge and together covering all four vertices — a quad;
`recordCommandBuffer` issues exactly one indexed draw of all 6 indices
(`indices.size()`), under the triangle-list topology fixed in the pipeline;
and the model matrix written by `updateUniformBuffer` is the rotation about
the z-axis, by an angle proportional to elapsed time — `π/2` radians, i.e.
90 degrees, per second. -/
theorem rotating_colored_quad :
    vertices.length = 4
  ∧ (vertices.map Vertex.color).Nodup
  ∧ indices = [0, 1, 2, 2, 3, 0]
  ∧ indices = [0, 1, 2] ++ [2, 3, 0]
  ∧ [0, 1, 2].inter [2, 3, 0] = [0, 2]
  ∧ indices.toFinset = Finset.range 4
  ∧ (∀ imageIndex curFrame : Nat,
      (recordCommandBuffer imageIndex curFrame).filter isDrawIndexed =
        [Cmd.drawIndexed 6 1 0 0 0])
  ∧ indices.length = 6
  ∧ pipelineInputAssemblyTopology = VkPrimitiveTopology.triangleList
  ∧ (∀ c s : ℚ, uboModel c s = rotationAboutZ c s)
  ∧ (∀ time : ℝ, uboModelAngle Real.pi time = Real.pi / 2 * time) := by
  refine ⟨by decide, by decide, by decide, by decide, by decide, by decide,
    fun _ _ => rfl, by decide, by decide,
    fun c s => uboModel_eq_rotationAboutZ c s, fun time => ?_⟩
  unfold uboModelAngle glmRadians
  field_simp
  ring

/-- C9: shader binaries are consumed as opaque files: `readFile` throws
`"Failed to Open File!"` exactly when the file cannot be opened, and
otherwise returns a buffer of the file's size holding its entire contents
uninterpreted; `createGraphicsPipeline` loads `data/shaders/vert.spv` and
`data/shaders/frag.spv` through it. -/
theorem readFile_contract (fs : String → Option (List Nat)) (filename : String) :
    (readFile fs filename = Except.error "Failed to Open File!" ↔ fs filename = none)
  ∧ (∀ contents, fs filename = some contents →
      readFile fs filename = Except.ok contents)
  ∧ (∀ contents buffer, fs filename = some contents →
      readFile fs filename = Except.ok buffer →
      buffer.length = contents.length ∧ buffer = contents)
  ∧ (∀ vertCode fragCode, fs "data/shaders/vert.spv" = some vertCode →
      fs "data/shaders/frag.spv" = some fragCode →
      createGraphicsPipelineShaders fs = Except.ok (vertCode, fragCode))
  ∧ (fs "data/shaders/vert.spv" = none →
      createGraphicsPipelineShaders fs = Except.error "Failed to Open File!")
  ∧ (fs "data/shaders/frag.spv" = none →
      createGraphicsPipelineShaders fs = Except.error "Failed to Open File!") := by
  refine ⟨?_, ?_, ?_, ?_, ?_, ?_⟩
  · cases h : fs filename <;> simp [readFile, h]
  · intro contents h
    simp [readFile, h]
  · intro contents buffer h hb
    simp [readFile, h] at hb
    simp [hb]
  · intro vertCode fragCode hv hf
    simp [createGraphicsPipelineShaders, readFile, hv, hf, Bind.bind, Except.bind,
      Pure.pure, Except.pure]
  · intro hv
    simp [createGraphicsPipelineShaders, readFile, hv, Bind.bind, Except.bind]
  · intro hf
    cases hv : fs "data/shaders/vert.spv" <;>
      simp [createGraphicsPipelineShaders, readFile, hv, hf, Bind.bind, Except.bind]

/-- Witness for C9, on a concrete filesystem fixture. -/
theorem readFile_contract_witness :
    readFile testFS "data/shaders/vert.spv" = Except.ok [3, 2, 35, 7]
  ∧ readFile testFS "missing.txt" = Except.error "Failed to Open File!"
  ∧ createGraphicsPipelineShaders testFS =
      Except.ok ([3, 2, 35, 7], [3, 2, 35, 7, 0]) := by
  refine ⟨(readFile_contract testFS "data/shaders/vert.spv").2.1 [3, 2, 35, 7] rfl,
    (readFile_contract testFS "missing.txt").1.mpr rfl,
    (readFile_contract testFS "x").2.2.2.1 [3, 2, 35, 7] [3, 2, 35, 7, 0] rfl rfl⟩

/-- The device `candidates.rbegin()` designates is the seed device or one
from the list. -/
theorem bestCandidate_mem (b : Int × PhysicalDevice) (l : List PhysicalDevice) :
    (bestCandidate b l).2 = b.2 ∨ (bestCandidate b l).2 ∈ l := by
  induction l generalizing b with
  | nil => left; rfl
  | cons d rest ih =>
    rw [bestCandidate]
    by_cases hc : rateDeviceSuitability d ≥ b.1
    · rw [if_pos hc]
      rcases ih (rateDeviceSuitability d, d) with h | h
      · right
        simp [h]
      · right
        simp [h]
    · rw [if_neg hc]
      rcases ih b with h | h
      · left
        exact h
      · right
        simp [h]

/-- The key of `candidates.rbegin()` is the rating of its device, provided
the seed pair is rated consistently. -/
theorem bestCandidate_rating (b : Int × PhysicalDevice)
    (hb : b.1 = rateDeviceSuitability b.2) (l : List PhysicalDevice) :
    (bestCandidate b l).1 = rateDeviceSuitability (bestCandidate b l).2 := by
  induction l generalizing b with
  | nil => exact hb
  | cons d rest ih =>
    rw [bestCandidate]
    by_cases hc : rateDeviceSuitability d ≥ b.1
    · rw [if_pos hc]
      exact ih _ rfl
    · rw [if_neg hc]
      exact ih _ hb

/-- The key of `candidates.rbegin()` dominates the seed key and every
rating in the list. -/
theorem bestCandidate_max (b : Int × PhysicalDevice) (l : List PhysicalDevice) :
    b.1 ≤ (bestCandidate b l).1 ∧
    ∀ d ∈ l, rateDeviceSuitability d ≤ (bestCandidate b l).1 := by
  induction l generalizing b with
  | nil => exact ⟨le_refl _, by simp⟩
  | cons d rest ih =>
    rw [bestCandidate]
    by_cases hc : rateDeviceSuitability d ≥ b.1
    · rw [if_pos hc]
      rcases ih (rateDeviceSuitability d, d) with ⟨h1, h2⟩
      refine ⟨le_trans hc h1, ?_⟩
      intro d2 hd2
      rcases List.mem_cons.mp hd2 with h | h
      · rw [h]; exact h1
      · exact h2 d2 h
    · rw [if_neg hc]
      rcases ih b with ⟨h1, h2⟩
      refine ⟨h1, ?_⟩
      intro d2 hd2
      rcases List.mem_cons.mp hd2 with h | h
      · rw [h]; exact le_trans (le_of_lt (lt_of_not_ge hc)) h1
      · exact h2 d2 h

/-- C6: `pickPhysicalDevice` throws
`"Failed to find GPUs with Vulkan Support!"` on an empty enumeration;
otherwise it selects an enumerated device of maximal
`rateDeviceSuitability` score, and throws `"Failed to find a suitable GPU"`
exactly when the maximal score is not positive. `rateDeviceSuitability`
returns 0 whenever geometry shaders are missing, and otherwise
`maxImageDimension2D` plus 1000 for a discrete GPU. -/
theorem device_selection :
    pickPhysicalDevice [] = Except.error "Failed to find GPUs with Vulkan Support!"
  ∧ (∀ devices d, pickPhysicalDevice devices = Except.ok d →
      d ∈ devices ∧ 0 < rateDeviceSuitability d ∧
      ∀ d2 ∈ devices, rateDeviceSuitability d2 ≤ rateDeviceSuitability d)
  ∧ (∀ dev devices,
      pickPhysicalDevice (dev :: devices) = Except.error "Failed to find a suitable GPU"
        ↔ ∀ d2 ∈ dev :: devices, rateDeviceSuitability d2 ≤ 0)
  ∧ (∀ d, d.geometryShader = false → rateDeviceSuitability d = 0)
  ∧ (∀ d, d.geometryShader = true →
      rateDeviceSuitability d =
        (if d.deviceType = VkPhysicalDeviceType.discreteGpu then 1000 else 0) +
          d.maxImageDimension2D) := by
  refine ⟨rfl, ?_, ?_, ?_, ?_⟩
  · intro devices d hpick
    match devices with
    | [] => cases hpick
    | dev :: rest =>
      rw [pickPhysicalDevice] at hpick
      set b := bestCandidate (rateDeviceSuitability dev, dev) rest with hbdef
      by_cases hpos : b.1 > 0
      · rw [if_pos hpos] at hpick
        have hd : d = b.2 := by
          cases hpick
          rfl
        have hrate : b.1 = rateDeviceSuitability b.2 :=
          bestCandidate_rating (rateDeviceSuitability dev, dev) rfl rest
        have hmax := bestCandidate_max (rateDeviceSuitability dev, dev) rest
        subst hd
        refine ⟨?_, ?_, ?_⟩
        · rcases bestCandidate_mem (rateDeviceSuitability dev, dev) rest with h | h
          · rw [h]
            exact List.mem_cons_self _ _
          · exact List.mem_cons_of_mem _ h
        · rw [← hrate]
          exact hpos
        · intro d2 hd2
          rw [← hrate]
          rcases List.mem_cons.mp hd2 with h | h
          · rw [h]
            exact hmax.1
          · exact hmax.2 d2 h
      · rw [if_neg hpos] at hpick
        cases hpick
  · intro dev devices
    rw [pickPhysicalDevice]
    set b := bestCandidate (rateDeviceSuitability dev, dev) devices with hbdef
    have hmax := bestCandidate_max (rateDeviceSuitability dev, dev) devices
    constructor
    · intro herr d2 hd2
      by_cases hpos : b.1 > 0
      · rw [if_pos hpos] at herr
        cases herr
      · have hle : b.1 ≤ 0 := le_of_not_lt hpos
        rcases List.mem_cons.mp hd2 with h | h
        · rw [h]
          exact le_trans hmax.1 hle
        · exact le_trans (hmax.2 d2 h) hle
    · intro hall
      have hrate : b.1 = rateDeviceSuitability b.2 :=
        bestCandidate_rating (rateDeviceSuitability dev, dev) rfl devices
      have hb2 : b.1 ≤ 0 := by
        rw [hrate]
        rcases bestCandidate_mem (rateDeviceSuitability dev, dev) devices with h | h
        · rw [h]
          exact hall dev (List.mem_cons_self _ _)
        · exact hall b.2 (List.mem_cons_of_mem _ h)
      rw [if_neg (not_lt_of_le hb2)]
  · intro d h
    simp [rateDeviceSuitability, h]
  · intro d h
    by_cases hd : d.deviceType = VkPhysicalDeviceType.discreteGpu <;>
      simp [rateDeviceSuitability, h, hd]

/-- Witness for C6: on a one-element enumeration the discrete GPU fixture
is selected with positive maximal score, and on the unsuitable fixture the
second error is thrown. -/
theorem device_selection_witness :
    emptyFormatsDevice ∈ [emptyFormatsDevice]
  ∧ 0 < rateDeviceSuitability emptyFormatsDevice
  ∧ pickPhysicalDevice [unsuitableDevice] =
      Except.error "Failed to find a suitable GPU" := by
  have h1 := device_selection.2.1 [emptyFormatsDevice] emptyFormatsDevice rfl
  have h2 := (device_selection.2.2.1 unsuitableDevice []).mpr (by decide)
  exact ⟨h1.1, h1.2.1, h2⟩

/-- `List.find?` returns the first element satisfying the predicate. -/
theorem find?_first_of_prefix_neg {α : Type} (p : α → Bool) (l1 l2 : List α) (f : α)
    (h1 : ∀ g ∈ l1, p g = false) (hf : p f = true) :
    (l1 ++ f :: l2).find? p = some f := by
  induction l1 with
  | nil =>
    simp [List.find?_cons, hf]
  | cons a t ih =>
    have ha : p a = false := h1 a (List.mem_cons_self _ _)
    simp only [List.cons_append, List.find?_cons, ha]
    exact ih fun g hg => h1 g (List.mem_cons_of_mem _ hg)

/-- C8 (amended): for every non-empty format list,
`chooseSwapSurfaceFormat` returns the first entry with format
`VK_FORMAT_B8G8R8A8_SRGB` and color space
`VK_COLOR_SPACE_SRGB_NONLINEAR_KHR`, or the first element when no entry
matches; `isDeviceSuitable` does accept a device only when its queried
format list is non-empty, but the selection in `pickPhysicalDevice` uses
`rateDeviceSuitability` — which never inspects the format list — instead of
`isDeviceSuitable`, so the non-emptiness precondition is not established at
the only call site: a selectable device whose format query is empty reaches
the out-of-bounds `availableFormats[0]`. -/
theorem surface_format_choice_amended :
    (∀ (l1 l2 : List SurfaceFormat) (f : SurfaceFormat),
      (∀ g ∈ l1, ¬(g.format = VkFormat.b8g8r8a8Srgb ∧
        g.colorSpace = VkColorSpace.srgbNonlinearKHR)) →
      f.format = VkFormat.b8g8r8a8Srgb →
      f.colorSpace = VkColorSpace.srgbNonlinearKHR →
      chooseSwapSurfaceFormat (l1 ++ f :: l2) = some f)
  ∧ (∀ (f : SurfaceFormat) (l : List SurfaceFormat),
      (∀ g ∈ f :: l, ¬(g.format = VkFormat.b8g8r8a8Srgb ∧
        g.colorSpace = VkColorSpace.srgbNonlinearKHR)) →
      chooseSwapSurfaceFormat (f :: l) = some f)
  ∧ (∀ d, isDeviceSuitable d = true → d.formats ≠ [])
  ∧ chooseSwapSurfaceFormat [] = none
  ∧ rateDeviceSuitability emptyFormatsDevice > 0
  ∧ pickPhysicalDevice [emptyFormatsDevice] = Except.ok emptyFormatsDevice
  ∧ emptyFormatsDevice.formats = []
  ∧ chooseSwapSurfaceFormat emptyFormatsDevice.formats = none := by
  refine ⟨?_, ?_, ?_, rfl, by decide, rfl, rfl, rfl⟩
  · intro l1 l2 f h1 hf1 hf2
    have hfind : (l1 ++ f :: l2).find? isPreferredSurfaceFormat = some f := by
      refine find?_first_of_prefix_neg _ l1 l2 f ?_ ?_
      · intro g hg
        simpa [isPreferredSurfaceFormat] using h1 g hg
      · simp [isPreferredSurfaceFormat, hf1, hf2]
    simp [chooseSwapSurfaceFormat, hfind]
  · intro f l hall
    have hfind : (f :: l).find? isPreferredSurfaceFormat = none := by
      rw [List.find?_eq_none]
      intro g hg
      simpa [isPreferredSurfaceFormat] using hall g hg
    simp [chooseSwapSurfaceFormat, hfind]
  · intro d hsuit hf
    cases hext : checkDeviceExtensionSupport d <;>
      simp [isDeviceSuitable, hext, hf] at hsuit

/-- Witness for C8 (amended), on concrete format lists. -/
theorem surface_format_choice_witness :
    chooseSwapSurfaceFormat
      [⟨VkFormat.b8g8r8a8Unorm, VkColorSpace.srgbNonlinearKHR⟩,
       ⟨VkFormat.b8g8r8a8Srgb, VkColorSpace.srgbNonlinearKHR⟩] =
      some ⟨VkFormat.b8g8r8a8Srgb, VkColorSpace.srgbNonlinearKHR⟩
  ∧ chooseSwapSurfaceFormat
      [⟨VkFormat.r8g8b8a8Srgb, VkColorSpace.otherColorSpace⟩,
       ⟨VkFormat.b8g8r8a8Unorm, VkColorSpace.srgbNonlinearKHR⟩] =
      some ⟨VkFormat.r8g8b8a8Srgb, VkColorSpace.otherColorSpace⟩ := by
  constructor
  · exact surface_format_choice_amended.1
      [⟨VkFormat.b8g8r8a8Unorm, VkColorSpace.srgbNonlinearKHR⟩] []
      ⟨VkFormat.b8g8r8a8Srgb, VkColorSpace.srgbNonlinearKHR⟩
      (by decide) rfl rfl
  · exact surface_format_choice_amended.2.1
      ⟨VkFormat.r8g8b8a8Srgb, VkColorSpace.otherColorSpace⟩
      [⟨VkFormat.b8g8r8a8Unorm, VkColorSpace.srgbNonlinearKHR⟩]
      (by decide)

/-- Counterexample for C8 as stated: the claimed justification — that the
non-emptiness precondition holds at the call site because
`isDeviceSuitable` filters the device — fails. `pickPhysicalDevice` never
calls `isDeviceSuitable`; it selects `emptyFormatsDevice` (rating 5096)
even though that device's surface-format query is empty and
`isDeviceSuitable` rejects it, and `chooseSwapSurfaceFormat` then performs
the out-of-bounds `availableFormats[0]` (modelled as `none`). -/
theorem surface_format_precondition_counterexample :
    pickPhysicalDevice [emptyFormatsDevice] = Except.ok emptyFormatsDevice
  ∧ emptyFormatsDevice.formats = []
  ∧ isDeviceSuitable emptyFormatsDevice = false
  ∧ chooseSwapSurfaceFormat emptyFormatsDevice.formats = none := by
  refine ⟨rfl, rfl, by decide, rfl⟩

/-- C2: in every `drawFrame`, the host first waits on
`inFlightFences_[curFrame_]`; the fence is reset only after the acquire
returned a success code (`VK_SUCCESS` or `VK_SUBOPTIMAL_KHR`), and only
that fence is reset; once the acquire has succeeded, the trace continues —
in order, after the acquire — with resetting the fence, resetting and
re-recording `commandBuffers_[curFrame_]`, updating the uniform buffer, and
a submit that waits on `imageAvailableSemaphores_[curFrame_]`, signals
`renderFinishedSemaphores_[curFrame_]` and signals
`inFlightFences_[curFrame_]` on completion; the presentation that follows a
successful submit waits on the render-finished semaphore of the slot. -/
theorem drawFrame_synchronization (st : FrameState) (env : FrameEnv) :
    (drawFrame st env).1.head? = some (Ev.waitFence st.curFrame)
  ∧ ((Ev.resetFence st.curFrame ∈ (drawFrame st env).1) ↔
      (env.acquireResult = VkResult.success ∨
       env.acquireResult = VkResult.suboptimalKHR))
  ∧ (∀ s, Ev.resetFence s ∈ (drawFrame st env).1 → s = st.curFrame)
  ∧ (env.acquireResult = VkResult.success ∨
     env.acquireResult = VkResult.suboptimalKHR →
      (drawFrame st env).1.take 7 =
        [Ev.waitFence st.curFrame,
         Ev.acquireImage st.curFrame,
         Ev.resetFence st.curFrame,
         Ev.resetCommandBuffer st.curFrame,
         Ev.recordBuffer st.curFrame env.acquiredImage,
         Ev.updateUniform st.curFrame,
         Ev.submit st.curFrame st.curFrame st.curFrame])
  ∧ ((env.acquireResult = VkResult.success ∨
      env.acquireResult = VkResult.suboptimalKHR) →
      env.submitOk = true →
      (drawFrame st env).1[7]? =
        some (Ev.present st.curFrame env.acquiredImage)) := by
  rcases env with ⟨ar, img, sok, pr⟩
  rcases st with ⟨cf, fr⟩
  cases ar <;> cases sok <;> cases pr <;> cases fr <;>
    simp [drawFrame]

/-- Witness for C2: one successful frame from slot 0. -/
theorem drawFrame_synchronization_witness :
    (drawFrame ⟨0, false⟩ ⟨VkResult.success, 1, true, VkResult.success⟩).1.take 7 =
      [Ev.waitFence 0, Ev.acquireImage 0, Ev.resetFence 0,
       Ev.resetCommandBuffer 0, Ev.recordBuffer 0 1, Ev.updateUniform 0,
       Ev.submit 0 0 0]
  ∧ (drawFrame ⟨0, false⟩ ⟨VkResult.success, 1, true, VkResult.success⟩).1[7]? =
      some (Ev.present 0 1) :=
  ⟨(drawFrame_synchronization ⟨0, false⟩
      ⟨VkResult.success, 1, true, VkResult.success⟩).2.2.2.1 (Or.inl rfl),
   (drawFrame_synchronization ⟨0, false⟩
      ⟨VkResult.success, 1, true, VkResult.success⟩).2.2.2.2 (Or.inl rfl) rfl⟩

/-- C4: swapchain-recreate-on-resize. When the acquire returns
`VK_ERROR_OUT_OF_DATE_KHR`, `drawFrame` clears `framebufferResized_`,
recreates the swapchain and returns early — the whole trace is the fence
wait, the acquire and the recreation, so nothing is submitted, the
in-flight fence is not reset (it stays signaled) and `curFrame_` does not
advance. When the present returns `VK_ERROR_OUT_OF_DATE_KHR` or
`VK_SUBOPTIMAL_KHR`, or `framebufferResized_` is set, the swapchain is
recreated and the flag cleared. Any other non-success result from acquire
or present throws a `runtime_error`. -/
theorem drawFrame_recreate_on_resize (st : FrameState) (env : FrameEnv) :
    (env.acquireResult = VkResult.errorOutOfDateKHR →
      drawFrame st env =
        ([Ev.waitFence st.curFrame, Ev.acquireImage st.curFrame,
          Ev.recreateSwapChain],
         Except.ok { curFrame := st.curFrame, framebufferResized := false }))
  ∧ (env.acquireResult = VkResult.errorOutOfDateKHR →
      Ev.resetFence st.curFrame ∉ (drawFrame st env).1 ∧
      ∀ w sg f, Ev.submit w sg f ∉ (drawFrame st env).1)
  ∧ (env.acquireResult = VkResult.errorOther →
      (drawFrame st env).2 = Except.error "Failed to acquire swap chain image!")
  ∧ ((env.acquireResult = VkResult.success ∨
      env.acquireResult = VkResult.suboptimalKHR) →
      env.submitOk = true →
      (env.presentResult = VkResult.errorOutOfDateKHR ∨
       env.presentResult = VkResult.suboptimalKHR ∨
       st.framebufferResized = true) →
      Ev.recreateSwapChain ∈ (drawFrame st env).1 ∧
      (drawFrame st env).2 =
        Except.ok { curFrame := (st.curFrame + 1) % MAX_FRAMES_IN_FLIGHT,
                    framebufferResized := false })
  ∧ ((env.acquireResult = VkResult.success ∨
      env.acquireResult = VkResult.suboptimalKHR) →
      env.submitOk = true →
      env.presentResult = VkResult.errorOther →
      st.framebufferResized = false →
      (drawFrame st env).2 =
        Except.error "Failed to present swap chain image!") := by
  rcases env with ⟨ar, img, sok, pr⟩
  rcases st with ⟨cf, fr⟩
  cases ar <;> cases sok <;> cases pr <;> cases fr <;>
    simp [drawFrame]

/-- Witness for C4: an out-of-date acquire from slot 1 leaves `curFrame_`
at 1, clears the resize flag, and recreates without submitting. -/
theorem drawFrame_recreate_witness :
    drawFrame ⟨1, true⟩ ⟨VkResult.errorOutOfDateKHR, 0, true, VkResult.success⟩ =
      ([Ev.waitFence 1, Ev.acquireImage 1, Ev.recreateSwapChain],
       Except.ok { curFrame := 1, framebufferResized := false }) :=
  (drawFrame_recreate_on_resize ⟨1, true⟩
    ⟨VkResult.errorOutOfDateKHR, 0, true, VkResult.success⟩).1 rfl

/-- A successful `drawFrame` either leaves `curFrame_` unchanged (the
early-return path) or advances it by
`curFrame_ = (curFrame_ + 1) % MAX_FRAMES_IN_FLIGHT`. -/
theorem drawFrame_curFrame_step (st : FrameState) (env : FrameEnv)
    (st2 : FrameState) (h : (drawFrame st env).2 = Except.ok st2) :
    st2.curFrame = st.curFrame ∨
    st2.curFrame = (st.curFrame + 1) % MAX_FRAMES_IN_FLIGHT := by
  rcases env with ⟨ar, img, sok, pr⟩
  rcases st with ⟨cf, fr⟩
  cases ar <;> cases sok <;> cases pr <;> cases fr <;>
    simp [drawFrame] at h <;> simp [← h]

/-- Any run of the main loop from the initial state keeps `curFrame_`
below `MAX_FRAMES_IN_FLIGHT`. -/
theorem runFrames_curFrame_lt (st : FrameState)
    (hst : st.curFrame < MAX_FRAMES_IN_FLIGHT) (envs : List FrameEnv)
    (st2 : FrameState) (h : runFrames st envs = Except.ok st2) :
    st2.curFrame < MAX_FRAMES_IN_FLIGHT := by
  induction envs generalizing st with
  | nil =>
    rw [runFrames] at h
    cases h
    exact hst
  | cons env rest ih =>
    rw [runFrames] at h
    cases hd : (drawFrame st env).2 with
    | error e =>
      rw [hd] at h
      cases h
    | ok stm =>
      rw [hd] at h
      have hstep := drawFrame_curFrame_step st env stm hd
      have hlt : stm.curFrame < MAX_FRAMES_IN_FLIGHT := by
        rcases hstep with h1 | h1
        · rwa [h1]
        · rw [h1]
          exact Nat.mod_lt _ (by norm_num [MAX_FRAMES_IN_FLIGHT])
      exact ih stm hlt h

/-- C3: the frame-overlap behaviour has the single parameter
`MAX_FRAMES_IN_FLIGHT = 2`; after `initVulkan`, the six per-frame vectors
each have length exactly `MAX_FRAMES_IN_FLIGHT`; and `curFrame_` starts at
0, is only ever updated by `curFrame_ = (curFrame_ + 1) %
MAX_FRAMES_IN_FLIGHT` (or left unchanged by an early return), and hence
stays in `[0, MAX_FRAMES_IN_FLIGHT)` along every run. -/
theorem frames_in_flight_invariants :
    MAX_FRAMES_IN_FLIGHT = 2
  ∧ (∀ a : PerFrameArrays,
      (initVulkanArrays a).commandBuffers.length = MAX_FRAMES_IN_FLIGHT ∧
      (initVulkanArrays a).imageAvailableSemaphores.length = MAX_FRAMES_IN_FLIGHT ∧
      (initVulkanArrays a).renderFinishedSemaphores.length = MAX_FRAMES_IN_FLIGHT ∧
      (initVulkanArrays a).inFlightFences.length = MAX_FRAMES_IN_FLIGHT ∧
      (initVulkanArrays a).uniformBuffers.length = MAX_FRAMES_IN_FLIGHT ∧
      (initVulkanArrays a).descriptorSets.length = MAX_FRAMES_IN_FLIGHT)
  ∧ initialFrameState.curFrame = 0
  ∧ (∀ st env st2, (drawFrame st env).2 = Except.ok st2 →
      st2.curFrame = st.curFrame ∨
      st2.curFrame = (st.curFrame + 1) % MAX_FRAMES_IN_FLIGHT)
  ∧ (∀ envs st2, runFrames initialFrameState envs = Except.ok st2 →
      st2.curFrame < MAX_FRAMES_IN_FLIGHT) := by
  refine ⟨rfl, fun a => ⟨rfl, rfl, rfl, rfl, rfl, rfl⟩, rfl,
    drawFrame_curFrame_step, fun envs st2 h => ?_⟩
  exact runFrames_curFrame_lt initialFrameState (by norm_num [initialFrameState,
    MAX_FRAMES_IN_FLIGHT]) envs st2 h

/-- Witness for C3: two successful frames from the initial state land on
`curFrame_ = 0` again, within bounds. -/
theorem frames_in_flight_witness :
    runFrames initialFrameState
      [⟨VkResult.success, 0, true, VkResult.success⟩,
       ⟨VkResult.success, 1, true, VkResult.success⟩] =
      Except.ok { curFrame := 0, framebufferResized := false }
  ∧ ({ curFrame := 0, framebufferResized := false } : FrameState).curFrame <
      MAX_FRAMES_IN_FLIGHT :=
  ⟨rfl,
   frames_in_flight_invariants.2.2.2.2
     [⟨VkResult.success, 0, true, VkResult.success⟩,
      ⟨VkResult.success, 1, true, VkResult.success⟩]
     { curFrame := 0, framebufferResized := false } rfl⟩

end MyVulkan
